import Mathlib

set_option maxRecDepth 100000

/-!
Verification of the fungi-taxonomy repository.

Part 1 models the data module (`createTaxonFrame` and the hand-authored
tree assembled by property assignments, exported as `fungiTaxonomy`).
JavaScript object identity and in-place mutation are modelled by a heap:
a list of `FrameData` records indexed by allocation order, where a
`children` entry stores the child's heap index.  Property assignment on a
JS object (`obj.k = v`, also `obj["k"] = v`) is modelled by `objSet`,
which overwrites an existing key in place and otherwise appends, matching
JS insertion-order semantics.

Part 2 models the React renderer `TaxonomyLevel`: the `Taxon` interface,
the per-instance UI state (`useState(false)` twice), and the render
output of one node and of the recursive tree.
-/

/-- JS truthiness of an optional string-valued field: an absent field
(`undefined`) and the empty string are falsy, any other string is truthy. -/
def jsTruthy : Option String → Bool
  | none => false
  | some s => s != ""

/-- A taxon frame as built by `createTaxonFrame` plus the two fields the
script adds by assignment (`domain` on the root, `inheritedDomain` copied
in the constructor).  `children` maps a key to the heap index of the child
frame, in JS insertion order. -/
structure FrameData where
  name : String
  rank : String
  description : Option String
  attributes : List (String × String)
  children : List (String × Nat)
  domain : Option String
  inheritedDomain : Option String
deriving DecidableEq, Repr

abbrev Heap := List FrameData

/-- The argument object of `createTaxonFrame`:
`{ name, rank, description, attributes = {} }`; `attributes` is `none`
when the call site omits the property (the JS default `= {}` applies). -/
structure TaxonSpec where
  name : String
  rank : String
  description : Option String
  attributes : Option (List (String × String))
deriving DecidableEq, Repr

/-- JS property assignment on an object viewed as an insertion-ordered
association list (a JS object holds each key at most once): overwrite the
binding in place when the key exists, append otherwise. -/
def objSet : List (String × Nat) → String → Nat → List (String × Nat)
  | [], k, v => [(k, v)]
  | p :: rest, k, v =>
    if p.1 == k then (k, v) :: rest else p :: objSet rest k v

/-- JS property read on the same representation. -/
def objGet : List (String × Nat) → String → Option Nat
  | [], _ => none
  | p :: rest, k => if p.1 == k then some p.2 else objGet rest k

/-- Replace the frame at index `i` by `f` applied to it (in-place object
mutation). -/
def updateFrame (h : Heap) (i : Nat) (f : FrameData → FrameData) : Heap :=
  match h[i]? with
  | some fr => h.set i (f fr)
  | none => h

/-- `createTaxonFrame({name, rank, description, attributes = {}}, parentFrame)`:
allocates a fresh frame with the given fields and empty `children`; when a
parent is supplied and `parentFrame.domain` is truthy, copies that value
onto the new frame as `inheritedDomain`.  Returns the extended heap and
the new frame's index. -/
def createTaxonFrame (h : Heap) (spec : TaxonSpec) (parentFrame : Option Nat) :
    Heap × Nat :=
  let base : FrameData :=
    { name := spec.name
      rank := spec.rank
      description := spec.description
      attributes := spec.attributes.getD []
      children := []
      domain := none
      inheritedDomain := none }
  let frame : FrameData :=
    match parentFrame with
    | none => base
    | some pid =>
      match h[pid]? with
      | none => base
      | some p =>
        if jsTruthy p.domain then { base with inheritedDomain := p.domain }
        else base
  (h ++ [frame], h.length)

/-- `frame.domain = d` (the script performs this once, on the root). -/
def setDomain (h : Heap) (i : Nat) (d : String) : Heap :=
  updateFrame h i (fun fr => { fr with domain := some d })

/-- `parent.children[key] = child`: the attach step of the script. -/
def setChild (h : Heap) (i : Nat) (key : String) (cid : Nat) : Heap :=
  updateFrame h i (fun fr => { fr with children := objSet fr.children key cid })

/-- Indices of the frames, in allocation (script) order. -/
def kingdomFungiId : Nat := 0
def phylumChytridiomycotaId : Nat := 1
def classChytridiomycetesId : Nat := 2
def orderChytridialesId : Nat := 3
def genusChytridiumId : Nat := 4
def orderRhizophydialesId : Nat := 5
def orderSpizellomycetalesId : Nat := 6
def classMonoblepharidomycetesId : Nat := 7
def orderMonoblepharidalesId : Nat := 8
def phylumNeocallimastigomycotaId : Nat := 9
def classNeocallimastigomycetesId : Nat := 10
def orderNeocallimastigalesId : Nat := 11
def phylumBlastocladiomycotaId : Nat := 12
def classBlastocladiomycetesId : Nat := 13
def orderBlastocladialesId : Nat := 14
def phylumMicrosporidiaId : Nat := 15
def phylumGlomeromycotaId : Nat := 16
def classArchaeosporomycetesId : Nat := 17
def orderArchaeosporalesId : Nat := 18
def classGlomeromycetesId : Nat := 19
def orderDiversisporalesId : Nat := 20
def orderGigasporalesId : Nat := 21
def orderGlomeralesId : Nat := 22
def classParaglomeromycetesId : Nat := 23
def orderParaglomeralesId : Nat := 24
def subphylumMucoromycotinaId : Nat := 25
def orderMucoralesId : Nat := 26
def orderEndogonalesId : Nat := 27
def orderMortierellalesId : Nat := 28
def subphylumEntomophthoromycotinaId : Nat := 29
def orderEntomophthoralesId : Nat := 30
def subphylumZoopagomycotinaId : Nat := 31
def orderZoopagalesId : Nat := 32

/-- The construction script of the data module, executed in source order:
every `createTaxonFrame` call, the `kingdomFungi.domain = "Eukaryota"`
assignment (which precedes every child construction), and the
`children` link assignments at the end of the file. -/
def fungiHeap : Heap :=
  let h : Heap := []
  let h := (createTaxonFrame h
    { name := "Fungi", rank := "Kingdom",
      description := some "Eukaryotic (with true nuclei); acellular, unicellular, or multicellular with hyphae; cell walls composed of chitin and/or polysaccharides; at least 99,000 species described.",
      attributes := some [] } none).1
  let h := setDomain h kingdomFungiId "Eukaryota"
  let h := (createTaxonFrame h
    { name := "Chytridiomycota", rank := "Phylum",
      description := some "Mainly aquatic, some are parasitic or saprotrophic; unicellular or filamentous; chitin and glucan cell wall; primarily asexual reproduction by motile spores (zoospores); contains 2 classes.",
      attributes := some [] } (some kingdomFungiId)).1
  let h := (createTaxonFrame h
    { name := "Chytridiomycetes", rank := "Class",
      description := some "Aquatic parasitic (on algae, fungi, or flowering plants) or saprotrophic; unicellular or filamentous; motile cells characterized by a single posterior flagellum; monocentric thallus or polycentric rhizomycelial; contains 3 orders.",
      attributes := some [] } (some phylumChytridiomycotaId)).1
  let h := (createTaxonFrame h
    { name := "Chytridiales", rank := "Order",
      description := some "Mainly found in soil; examples of genera include Chytridium, Chytriomyces, and Nowakowskiella.",
      attributes := some [] } (some classChytridiomycetesId)).1
  let h := (createTaxonFrame h
    { name := "Chytridium", rank := "Genus",
      description := some "A genus of chytrids found in soil, characterized by its unique motile spores.",
      attributes := some [("habitat", "Soil"),
        ("reproduction", "Asexual reproduction via motile zoospores"),
        ("cellStructure", "Unicellular or simple filamentous structures")] }
    (some orderChytridialesId)).1
  let h := (createTaxonFrame h
    { name := "Rhizophydiales", rank := "Order",
      description := some "Aquatic parasitic (on algae) or saprotrophic (in soil or on pollen, keratin, or chitin); sporangia spherical or angular; rhizoids branched; example genus is Rhizophydium.",
      attributes := some [] } (some classChytridiomycetesId)).1
  let h := (createTaxonFrame h
    { name := "Spizellomycetales", rank := "Order",
      description := some "Parasitic on soil organisms and plants; holocarpic or eucarpic; example genera include Spizellomyces and Powellomyces.",
      attributes := some [] } (some classChytridiomycetesId)).1
  let h := (createTaxonFrame h
    { name := "Monoblepharidomycetes", rank := "Class",
      description := some "Asexual reproduction by zoospores or autospores; filamentous, branched or unbranched thallus; contains 1 order.",
      attributes := some [] } (some phylumChytridiomycotaId)).1
  let h := (createTaxonFrame h
    { name := "Monoblepharidales", rank := "Order",
      description := some "Sexual reproduction by motile gamete (antherozoid) fertilizing nonmotile egg, resulting in thick-walled oospore; example genus is Monoblepharis.",
      attributes := some [] } (some classMonoblepharidomycetesId)).1
  let h := (createTaxonFrame h
    { name := "Neocallimastigomycota", rank := "Phylum",
      description := some "Found in digestive tracts of herbivores; anaerobic; zoospores with one or more posterior flagella; lacks mitochondria but contains hydrogenosomes (hydrogen-producing, membrane-bound organelles).",
      attributes := some [] } (some kingdomFungiId)).1
  let h := (createTaxonFrame h
    { name := "Neocallimastigomycetes", rank := "Class",
      description := some "Contains 1 order.",
      attributes := some [] } (some phylumNeocallimastigomycotaId)).1
  let h := (createTaxonFrame h
    { name := "Neocallimastigales", rank := "Order",
      description := some "Digest cellulose; example genus is Neocallimastix.",
      attributes := some [] } (some classNeocallimastigomycetesId)).1
  let h := (createTaxonFrame h
    { name := "Blastocladiomycota", rank := "Phylum",
      description := some "Parasitic on plants and animals, some are saprotrophic; aquatic and terrestrial; flagellated; alternates between haploid and diploid generations (zygotic meiosis).",
      attributes := some [] } (some kingdomFungiId)).1
  let h := (createTaxonFrame h
    { name := "Blastocladiomycetes", rank := "Class",
      description := some "Parasitic or saprotrophic; contains 1 order.",
      attributes := some [] } (some phylumBlastocladiomycotaId)).1
  let h := (createTaxonFrame h
    { name := "Blastocladiales", rank := "Order",
      description := some "Parasitic on many different substrates, including decaying fruits; example genera include Allomyces and Coelomomyces.",
      attributes := some [] } (some classBlastocladiomycetesId)).1
  let h := (createTaxonFrame h
    { name := "Microsporidia", rank := "Phylum",
      description := some "Parasitic on animals and protists; unicellular; highly reduced mitochondria; phylum not subdivided due to lack of well-defined phylogenetic relationships within the group.",
      attributes := some [] } (some kingdomFungiId)).1
  let h := (createTaxonFrame h
    { name := "Glomeromycota", rank := "Phylum",
      description := some "Forms obligate, mutualistic, symbiotic relationships in which hyphae penetrate into the cells of roots of plants and trees (arbuscular mycorrhizal associations); coenocytic hyphae; reproduces asexually; cell walls composed primarily of chitin.",
      attributes := some [] } (some kingdomFungiId)).1
  let h := (createTaxonFrame h
    { name := "Archaeosporomycetes", rank := "Class",
      description := some "Arbuscular mycorrhizal; spores form singly or in loose clusters.",
      attributes := some [] } (some phylumGlomeromycotaId)).1
  let h := (createTaxonFrame h
    { name := "Archaeosporales", rank := "Order",
      description := some "Arbuscular mycorrhizal; example genera include Archaeospora and Geosiphon.",
      attributes := some [] } (some classArchaeosporomycetesId)).1
  let h := (createTaxonFrame h
    { name := "Glomeromycetes", rank := "Class",
      description := some "Arbuscular mycorrhizal; single or clustered spores; contains 4 orders.",
      attributes := some [] } (some phylumGlomeromycotaId)).1
  let h := (createTaxonFrame h
    { name := "Diversisporales", rank := "Order",
      description := some "Arbuscular mycorrhizal; forms complexes of spores; example genera include Acaulospora, Diversispora, and Pacispora.",
      attributes := some [] } (some classGlomeromycetesId)).1
  let h := (createTaxonFrame h
    { name := "Gigasporales", rank := "Order",
      description := some "Arbuscular mycorrhizal; uses extra-radical auxiliary cells instead of vesicles in plant roots.",
      attributes := some [] } (some classGlomeromycetesId)).1
  let h := (createTaxonFrame h
    { name := "Glomerales", rank := "Order",
      description := some "Arbuscular mycorrhizal; forms single spores, loose clusters of spores, or compact sporocarps (fruiting bodies); example genus is Glomus.",
      attributes := some [] } (some classGlomeromycetesId)).1
  let h := (createTaxonFrame h
    { name := "Paraglomeromycetes", rank := "Class",
      description := some "Arbuscular mycorrhizal; forms complexes of spores.",
      attributes := some [] } (some phylumGlomeromycotaId)).1
  let h := (createTaxonFrame h
    { name := "Paraglomerales", rank := "Order",
      description := some "Arbuscular mycorrhizal; example genus is Paraglomus.",
      attributes := some [] } (some classParaglomeromycetesId)).1
  let h := (createTaxonFrame h
    { name := "Mucoromycotina (incertae sedis)", rank := "Subphylum",
      description := some "Parasitic, saprotrophic, or ectomycorrhizal; asexual or sexual reproduction; branched mycelium; contains 3 orders that represent the traditional Zygomycota.",
      attributes := some [] } (some kingdomFungiId)).1
  let h := (createTaxonFrame h
    { name := "Mucorales", rank := "Order",
      description := some "Parasitic or saprotrophic; filamentous; nonmotile spores (aplanospores); coenocytic mycelium; asexual reproduction by formation of sporangiospores; example genera include Mucor, Parasitella, Phycomyces, Pilobolus, and Rhizopus.",
      attributes := some [] } (some subphylumMucoromycotinaId)).1
  let h := (createTaxonFrame h
    { name := "Endogonales", rank := "Order",
      description := some "Saprotrophic or mycorrhizal; filamentous; coenocytic mycelium; underground sporocarp; example genera include Endogone, Peridiospora, Sclerogone, and Youngiomyces.",
      attributes := some [] } (some subphylumMucoromycotinaId)).1
  let h := (createTaxonFrame h
    { name := "Mortierellales", rank := "Order",
      description := some "Parasitic or saprotrophic; fine mycelium, branched (arachnoid); sporangia with 1 or many spores; may form chlamydospores; produces garliclike odor; example genera include Mortierella, Dissophora, and Modicella.",
      attributes := some [] } (some subphylumMucoromycotinaId)).1
  let h := (createTaxonFrame h
    { name := "Entomophthoromycotina (incertae sedis)", rank := "Subphylum",
      description := some "Pathogenic, saprotrophic, or parasitic; coenocytic or septate mycelium; rhizoids formed by some species; conidiophore branched or unbranched; conidia forcibly discharged; contains 1 order.",
      attributes := some [] } (some kingdomFungiId)).1
  let h := (createTaxonFrame h
    { name := "Entomophthorales", rank := "Order",
      description := some "Primarily parasitic on insects, some may be saprotrophic in soil; coenocytic mycelium, may become septate; example genera include Entomophthora, Ballocephala, Conidiobolus, Entomophaga, and Neozygites.",
      attributes := some [] } (some subphylumEntomophthoromycotinaId)).1
  let h := (createTaxonFrame h
    { name := "Zoopagomycotina (incertae sedis)", rank := "Subphylum",
      description := some "Endoparasitic (lives in the body) or ectoparasitic (lives on the body) on nematodes, protozoa, and fungi; thallus branched or unbranched; asexual and sexual reproduction; contains 1 order.",
      attributes := some [] } (some kingdomFungiId)).1
  let h := (createTaxonFrame h
    { name := "Zoopagales", rank := "Order",
      description := some "Parasitic on amoebas, rotifers, nematodes, and other protozoa; asexual reproduction by conidia borne singly or in chains, not forcibly discharged; example genera include Cochlonema, Rhopalomyces, Piptocephalis, Sigmoideomyces, Syncephalis, and Zoopage.",
      attributes := some [] } (some subphylumZoopagomycotinaId)).1
  let h := setChild h kingdomFungiId "Chytridiomycota" phylumChytridiomycotaId
  let h := setChild h kingdomFungiId "Neocallimastigomycota" phylumNeocallimastigomycotaId
  let h := setChild h kingdomFungiId "Blastocladiomycota" phylumBlastocladiomycotaId
  let h := setChild h kingdomFungiId "Microsporidia" phylumMicrosporidiaId
  let h := setChild h kingdomFungiId "Glomeromycota" phylumGlomeromycotaId
  let h := setChild h kingdomFungiId "Mucoromycotina (incertae sedis)" subphylumMucoromycotinaId
  let h := setChild h kingdomFungiId "Entomophthoromycotina (incertae sedis)" subphylumEntomophthoromycotinaId
  let h := setChild h kingdomFungiId "Zoopagomycotina (incertae sedis)" subphylumZoopagomycotinaId
  let h := setChild h phylumChytridiomycotaId "Chytridiomycetes" classChytridiomycetesId
  let h := setChild h phylumChytridiomycotaId "Monoblepharidomycetes" classMonoblepharidomycetesId
  let h := setChild h classChytridiomycetesId "Chytridiales" orderChytridialesId
  let h := setChild h classChytridiomycetesId "Rhizophydiales" orderRhizophydialesId
  let h := setChild h classChytridiomycetesId "Spizellomycetales" orderSpizellomycetalesId
  let h := setChild h orderChytridialesId "Chytridium" genusChytridiumId
  let h := setChild h classMonoblepharidomycetesId "Monoblepharidales" orderMonoblepharidalesId
  let h := setChild h phylumNeocallimastigomycotaId "Neocallimastigomycetes" classNeocallimastigomycetesId
  let h := setChild h classNeocallimastigomycetesId "Neocallimastigales" orderNeocallimastigalesId
  let h := setChild h phylumBlastocladiomycotaId "Blastocladiomycetes" classBlastocladiomycetesId
  let h := setChild h classBlastocladiomycetesId "Blastocladiales" orderBlastocladialesId
  let h := setChild h phylumGlomeromycotaId "Archaeosporomycetes" classArchaeosporomycetesId
  let h := setChild h phylumGlomeromycotaId "Glomeromycetes" classGlomeromycetesId
  let h := setChild h phylumGlomeromycotaId "Paraglomeromycetes" classParaglomeromycetesId
  let h := setChild h classArchaeosporomycetesId "Archaeosporales" orderArchaeosporalesId
  let h := setChild h classGlomeromycetesId "Diversisporales" orderDiversisporalesId
  let h := setChild h classGlomeromycetesId "Gigasporales" orderGigasporalesId
  let h := setChild h classGlomeromycetesId "Glomerales" orderGlomeralesId
  let h := setChild h classParaglomeromycetesId "Paraglomerales" orderParaglomeralesId
  let h := setChild h subphylumMucoromycotinaId "Mucorales" orderMucoralesId
  let h := setChild h subphylumMucoromycotinaId "Endogonales" orderEndogonalesId
  let h := setChild h subphylumMucoromycotinaId "Mortierellales" orderMortierellalesId
  let h := setChild h subphylumEntomophthoromycotinaId "Entomophthorales" orderEntomophthoralesId
  let h := setChild h subphylumZoopagomycotinaId "Zoopagales" orderZoopagalesId
  h

/-- `export const fungiTaxonomy = kingdomFungi`: the exported root handle. -/
def fungiTaxonomy : Nat := kingdomFungiId

/-- The `children` association list of frame `i` (empty for a dangling index). -/
def childEntries (h : Heap) (i : Nat) : List (String × Nat) :=
  match h[i]? with
  | some f => f.children
  | none => []

/-- The child indices of frame `i`, in insertion order. -/
def childIds (h : Heap) (i : Nat) : List Nat :=
  (childEntries h i).map Prod.snd

/-- One `children` lookup step, as a Boolean. -/
def stepB (h : Heap) (a b : Nat) : Bool :=
  (childIds h a).contains b

/-- One `children` lookup step, as a relation. -/
def Step (h : Heap) (a b : Nat) : Prop :=
  stepB h a b = true

/-- Bounded reachability by `children` lookups: `reachWithin h n a b` holds
when some chain of at most `n` lookups leads from `a` to `b`. -/
def reachWithin (h : Heap) : Nat → Nat → Nat → Bool
  | 0, a, b => a == b
  | n + 1, a, b => a == b || (childIds h a).any (fun c => reachWithin h n c b)

/-- Depths of the 33 frames in the constructed tree, listed in allocation
order (root at depth 0). -/
def lvlList : List Nat :=
  [0, 1, 2, 3, 4, 3, 3, 2, 3, 1, 2, 3, 1, 2, 3, 1, 1, 2, 3, 2, 3, 3, 3, 2,
   3, 1, 2, 2, 2, 1, 2, 1, 2]

/-- Depth of frame `i` in the constructed tree. -/
def lvlOf (i : Nat) : Nat := lvlList.getD i 0

theorem reachWithin_sound (h : Heap) :
    ∀ n a b, reachWithin h n a b = true →
      Relation.ReflTransGen (Step h) a b := by
  intro n
  induction n with
  | zero =>
    intro a b hab
    simp only [reachWithin, beq_iff_eq] at hab
    subst hab
    exact Relation.ReflTransGen.refl
  | succ n ih =>
    intro a b hab
    simp only [reachWithin, Bool.or_eq_true, beq_iff_eq, List.any_eq_true] at hab
    rcases hab with hab | ⟨c, hc, hr⟩
    · subst hab
      exact Relation.ReflTransGen.refl
    · have hstep : Step h a c := by
        simp only [Step, stepB, List.contains_iff_exists_mem_beq]
        exact ⟨c, hc, by simp⟩
      exact Relation.ReflTransGen.head hstep (ih c b hr)

theorem step_lt (h : Heap) (a b : Nat) (hs : Step h a b) : a < h.length := by
  by_contra hge
  have hnone : h[a]? = none := by
    simp [List.getElem?_eq_none_iff]
    omega
  simp [Step, stepB, childIds, childEntries, hnone] at hs

theorem step_mem (h : Heap) (a b : Nat) (hs : Step h a b) :
    b ∈ childIds h a := by
  simpa [Step, stepB, List.contains_iff_exists_mem_beq] using hs

theorem transGen_lvl_lt (h : Heap) (lvl : Nat → Nat)
    (hstep : ∀ a b, Step h a b → lvl a < lvl b) :
    ∀ a b, Relation.TransGen (Step h) a b → lvl a < lvl b := by
  intro a b hab
  induction hab with
  | single hs => exact hstep _ _ hs
  | tail _ hs ih => exact ih.trans (hstep _ _ hs)

theorem fungiHeap_length : fungiHeap.length = 33 := by decide

theorem fungiHeap_step_lvl (a b : Nat) (hs : Step fungiHeap a b) :
    lvlOf a < lvlOf b := by
  have ha : a < 33 := by
    have h1 := step_lt fungiHeap a b hs
    have h2 := fungiHeap_length
    omega
  have key : ∀ a, a < 33 → ∀ c ∈ childIds fungiHeap a, lvlOf c = lvlOf a + 1 := by
    decide
  have := key a ha b (step_mem fungiHeap a b hs)
  omega

theorem step_target_lt (a b : Nat) (hs : Step fungiHeap a b) :
    b < fungiHeap.length := by
  have ha : a < 33 := by
    have h1 := step_lt fungiHeap a b hs
    have h2 := fungiHeap_length
    omega
  have key : ∀ a, a < 33 → ∀ c ∈ childIds fungiHeap a, c < 33 := by decide
  have h3 := key a ha b (step_mem fungiHeap a b hs)
  have h4 := fungiHeap_length
  omega

theorem reachable_lt (b : Nat)
    (hr : Relation.ReflTransGen (Step fungiHeap) fungiTaxonomy b) :
    b < fungiHeap.length := by
  induction hr with
  | refl => decide
  | tail _ hs _ => exact step_target_lt _ _ hs

theorem createTaxonFrame_self (h : Heap) (spec : TaxonSpec) (par : Option Nat) :
    (createTaxonFrame h spec par).1[(createTaxonFrame h spec par).2]? =
      some { name := spec.name, rank := spec.rank,
             description := spec.description,
             attributes := spec.attributes.getD [], children := [],
             domain := none,
             inheritedDomain :=
               match par with
               | none => none
               | some pid =>
                 match h[pid]? with
                 | none => none
                 | some p => if jsTruthy p.domain then p.domain else none } := by
  unfold createTaxonFrame
  cases par with
  | none => simp
  | some pid =>
    cases hp : h[pid]? with
    | none => simp [hp]
    | some p =>
      by_cases hd : jsTruthy p.domain
      · simp [hp, hd]
      · simp [hp, hd]

theorem createTaxonFrame_preserves (h : Heap) (spec : TaxonSpec)
    (par : Option Nat) (i : Nat) (hi : i < h.length) :
    (createTaxonFrame h spec par).1[i]? = h[i]? := by
  unfold createTaxonFrame
  rw [List.getElem?_append]
  simp [hi]

theorem setDomain_getElem_ne (h : Heap) (i j : Nat) (d : String)
    (hne : j ≠ i) : (setDomain h i d)[j]? = h[j]? := by
  unfold setDomain updateFrame
  cases hp : h[i]? with
  | none => rfl
  | some fr => exact List.getElem?_set_ne (Ne.symm hne)

theorem objSet_objSet (xs : List (String × Nat)) (k : String) (v1 v2 : Nat) :
    objSet (objSet xs k v1) k v2 = objSet xs k v2 := by
  induction xs with
  | nil => simp [objSet]
  | cons p rest ih =>
    by_cases hp : p.1 == k
    · simp [objSet, hp]
    · simp [objSet, hp, ih]

theorem objGet_objSet_self (xs : List (String × Nat)) (k : String) (v : Nat) :
    objGet (objSet xs k v) k = some v := by
  induction xs with
  | nil => simp [objSet, objGet]
  | cons p rest ih =>
    by_cases hp : p.1 == k
    · simp [objSet, hp, objGet]
    · simp [objSet, hp, objGet, ih]

theorem objGet_objSet_ne (xs : List (String × Nat)) (k k2 : String)
    (v : Nat) (hne : k2 ≠ k) : objGet (objSet xs k v) k2 = objGet xs k2 := by
  have hkk2 : (k == k2) = false := by
    simp [Ne.symm hne]
  induction xs with
  | nil => simp [objSet, objGet, hkk2]
  | cons p rest ih =>
    by_cases hp : p.1 == k
    · have hp2 : (p.1 == k2) = false := by
        have : p.1 = k := by simpa using hp
        simp [this, Ne.symm hne]
      simp [objSet, hp, objGet, hkk2, hp2]
    · simp [objSet, hp, objGet, ih]

theorem setChild_setChild (h : Heap) (pid : Nat) (k : String)
    (c1 c2 : Nat) :
    setChild (setChild h pid k c1) pid k c2 = setChild h pid k c2 := by
  cases hp : h[pid]? with
  | none => simp [setChild, updateFrame, hp]
  | some fr =>
    have hlt : pid < h.length := by
      by_contra hge
      simp [List.getElem?_eq_none (by omega : h.length ≤ pid)] at hp
    have hget : (h.set pid
        { fr with children := objSet fr.children k c1 })[pid]? =
        some { fr with children := objSet fr.children k c1 } :=
      List.getElem?_set_self (by simpa using hlt)
    simp [setChild, updateFrame, hp, hget, List.set_set, objSet_objSet]

/-- A parent frame that carries a `domain` field whose value is the empty
string: present, but falsy in JS. -/
def cexParent : FrameData :=
  { name := "P", rank := "Kingdom", description := none, attributes := [],
    children := [], domain := some "", inheritedDomain := none }

/-- A minimal construction argument for the C1 inputs. -/
def cexSpec : TaxonSpec :=
  { name := "C", rank := "Phylum", description := none, attributes := none }

/-- C1 (counterexample): the parent frame at index 0 carries a `domain`
field (value `""`), yet the node returned by `createTaxonFrame` carries no
`inheritedDomain` (its value is `none`, which differs from the parent's
`domain` value `some ""`): the guard `if (parentFrame.domain)` tests JS
truthiness, not field presence. -/
theorem createTaxonFrame_domain_presence_cex :
    (([cexParent] : Heap)[0]?).map FrameData.domain = some (some "") ∧
    ((createTaxonFrame [cexParent] cexSpec (some 0)).1[
        (createTaxonFrame [cexParent] cexSpec (some 0)).2]?).map
      FrameData.inheritedDomain = some none ∧
    (none : Option String) ≠ some "" := by
  decide

/-- C1 (amended): for every construction call with a supplied parent
frame, the returned node's `inheritedDomain` is the parent's `domain`
value at construction time when that value is truthy (present and
non-empty), and is unset otherwise; with no parent it is unset; and the
copy is a one-time snapshot, not a live reference: reassigning the
parent's `domain` afterwards leaves the constructed node unchanged. -/
theorem createTaxonFrame_inheritedDomain_snapshot
    (h : Heap) (spec : TaxonSpec) (pid : Nat) (p : FrameData)
    (hp : h[pid]? = some p) :
    ((createTaxonFrame h spec (some pid)).1[
        (createTaxonFrame h spec (some pid)).2]?).map FrameData.inheritedDomain =
      some (if jsTruthy p.domain then p.domain else none) ∧
    (∀ spec2 : TaxonSpec,
      ((createTaxonFrame h spec2 none).1[
          (createTaxonFrame h spec2 none).2]?).map FrameData.inheritedDomain =
        some none) ∧
    (∀ d : String,
      (setDomain (createTaxonFrame h spec (some pid)).1 pid d)[
          (createTaxonFrame h spec (some pid)).2]? =
        (createTaxonFrame h spec (some pid)).1[
          (createTaxonFrame h spec (some pid)).2]?) := by
  refine ⟨?_, ?_, ?_⟩
  · rw [createTaxonFrame_self]
    by_cases hd : jsTruthy p.domain <;> simp [hp, hd]
  · intro spec2
    rw [createTaxonFrame_self]
    simp
  · intro d
    apply setDomain_getElem_ne
    have hlt : pid < h.length := by
      by_contra hge
      simp [List.getElem?_eq_none (by omega : h.length ≤ pid)] at hp
    simp only [createTaxonFrame]
    omega

/-- A parent frame with a truthy `domain`, for instantiating C1. -/
def snapParent : FrameData :=
  { name := "K", rank := "Kingdom", description := none, attributes := [],
    children := [], domain := some "Eukaryota", inheritedDomain := none }

/-- Witness for C1 at a concrete heap and parent. -/
theorem createTaxonFrame_inheritedDomain_snapshot_witness :
    ((createTaxonFrame [snapParent] cexSpec (some 0)).1[
        (createTaxonFrame [snapParent] cexSpec (some 0)).2]?).map
      FrameData.inheritedDomain =
      some (if jsTruthy snapParent.domain then snapParent.domain else none) :=
  (createTaxonFrame_inheritedDomain_snapshot [snapParent] cexSpec 0 snapParent
    (by decide)).1

/-- C2: in the constructed tree, a frame carries `inheritedDomain` exactly
when it is a direct child of the root, and then its value is
`"Eukaryota"`; the root itself and every frame at depth two or more
carries none. -/
theorem fungiTaxonomy_inheritedDomain_exactly_root_children :
    ∀ i, i < fungiHeap.length →
      (fungiHeap[i]?).map FrameData.inheritedDomain =
        some (if stepB fungiHeap fungiTaxonomy i then some "Eukaryota"
              else none) := by
  decide

/-- Witness for C2 at the Phylum Chytridiomycota frame. -/
theorem fungiTaxonomy_inheritedDomain_witness :
    (fungiHeap[phylumChytridiomycotaId]?).map FrameData.inheritedDomain =
      some (if stepB fungiHeap fungiTaxonomy phylumChytridiomycotaId
            then some "Eukaryota" else none) :=
  fungiTaxonomy_inheritedDomain_exactly_root_children phylumChytridiomycotaId
    (by decide)

/-- C3: the constructed tree has exactly one root — the frame named
`"Fungi"` of rank `"Kingdom"`, which is no frame's child, while every
other frame is some frame's child — every frame is reachable from the
root by `children` lookups, and no frame appears among its own
descendants. -/
theorem fungiTaxonomy_rooted_reachable_acyclic :
    ((fungiHeap[fungiTaxonomy]?).map FrameData.name = some "Fungi" ∧
      (fungiHeap[fungiTaxonomy]?).map FrameData.rank = some "Kingdom") ∧
    (∀ a : Nat, ¬ Step fungiHeap a fungiTaxonomy) ∧
    (∀ b, b < fungiHeap.length → b ≠ fungiTaxonomy →
      ∃ a, Step fungiHeap a b) ∧
    (∀ b, b < fungiHeap.length →
      Relation.ReflTransGen (Step fungiHeap) fungiTaxonomy b) ∧
    (∀ a : Nat, ¬ Relation.TransGen (Step fungiHeap) a a) := by
  refine ⟨⟨by decide, by decide⟩, ?_, ?_, ?_, ?_⟩
  · intro a hs
    have ha : a < 33 := by
      have h1 := step_lt fungiHeap a fungiTaxonomy hs
      have h2 := fungiHeap_length
      omega
    have hall : ∀ a, a < 33 → stepB fungiHeap a fungiTaxonomy = false := by
      decide
    unfold Step at hs
    rw [hall a ha] at hs
    exact Bool.noConfusion hs
  · intro b hb hne
    have hb33 : b < 33 := by
      have := fungiHeap_length
      omega
    have hex : ∀ b, b < 33 → b ≠ 0 →
        ((List.range 33).any (fun a => stepB fungiHeap a b)) = true := by
      decide
    have h1 := hex b hb33 (by simpa [fungiTaxonomy, kingdomFungiId] using hne)
    rw [List.any_eq_true] at h1
    obtain ⟨a, _, ha⟩ := h1
    exact ⟨a, ha⟩
  · intro b hb
    have hb33 : b < 33 := by
      have := fungiHeap_length
      omega
    have hall : ∀ b, b < 33 →
        reachWithin fungiHeap 33 fungiTaxonomy b = true := by decide
    exact reachWithin_sound fungiHeap 33 fungiTaxonomy b (hall b hb33)
  · intro a hcyc
    exact absurd (transGen_lvl_lt fungiHeap lvlOf fungiHeap_step_lvl a a hcyc)
      (lt_irrefl _)

/-- Witness for C3: the Genus Chytridium frame is reachable from the root
and has a parent. -/
theorem fungiTaxonomy_rooted_reachable_acyclic_witness :
    Relation.ReflTransGen (Step fungiHeap) fungiTaxonomy genusChytridiumId ∧
    (∃ a, Step fungiHeap a genusChytridiumId) :=
  ⟨fungiTaxonomy_rooted_reachable_acyclic.2.2.2.1 genusChytridiumId (by decide),
   fungiTaxonomy_rooted_reachable_acyclic.2.2.1 genusChytridiumId (by decide)
     (by decide)⟩

/-- C4: in the constructed tree, for every frame reachable from the root
and every key in its `children`, the child stored under that key has that
key as its `name`. -/
theorem fungiTaxonomy_key_consistency :
    ∀ i, Relation.ReflTransGen (Step fungiHeap) fungiTaxonomy i →
      ∀ p ∈ childEntries fungiHeap i,
        (fungiHeap[p.2]?).map FrameData.name = some p.1 := by
  intro i hr
  have hi : i < 33 := by
    have h1 := reachable_lt i hr
    have h2 := fungiHeap_length
    omega
  have key : ∀ i, i < 33 → ∀ p ∈ childEntries fungiHeap i,
      (fungiHeap[p.2]?).map FrameData.name = some p.1 := by decide
  exact key i hi

/-- Witness for C4 at the root and its first child entry. -/
theorem fungiTaxonomy_key_consistency_witness :
    (fungiHeap[phylumChytridiomycotaId]?).map FrameData.name =
      some "Chytridiomycota" :=
  fungiTaxonomy_key_consistency fungiTaxonomy Relation.ReflTransGen.refl
    ("Chytridiomycota", phylumChytridiomycotaId) (by decide)

/-- C5: `createTaxonFrame` returns a node whose `name`, `rank`,
`description`, and `attributes` equal the given fields and whose
`children` mapping is empty; when the call omits `attributes` the field
defaults to the empty mapping; and no existing frame — in particular no
supplied parent — is modified. -/
theorem createTaxonFrame_fields_and_no_parent_mutation
    (h : Heap) (spec : TaxonSpec) (par : Option Nat) :
    ((createTaxonFrame h spec par).1[
        (createTaxonFrame h spec par).2]?).map FrameData.name =
      some spec.name ∧
    ((createTaxonFrame h spec par).1[
        (createTaxonFrame h spec par).2]?).map FrameData.rank =
      some spec.rank ∧
    ((createTaxonFrame h spec par).1[
        (createTaxonFrame h spec par).2]?).map FrameData.description =
      some spec.description ∧
    ((createTaxonFrame h spec par).1[
        (createTaxonFrame h spec par).2]?).map FrameData.attributes =
      some (spec.attributes.getD []) ∧
    ((createTaxonFrame h spec par).1[
        (createTaxonFrame h spec par).2]?).map FrameData.children =
      some [] ∧
    (spec.attributes = none →
      ((createTaxonFrame h spec par).1[
          (createTaxonFrame h spec par).2]?).map FrameData.attributes =
        some []) ∧
    (∀ i, i < h.length → (createTaxonFrame h spec par).1[i]? = h[i]?) := by
  rw [createTaxonFrame_self]
  refine ⟨rfl, rfl, rfl, rfl, rfl, ?_, ?_⟩
  · intro hnone
    simp [hnone]
  · intro i hi
    exact createTaxonFrame_preserves h spec par i hi

/-- A one-frame heap for instantiating C5. -/
def w5Frame : FrameData :=
  { name := "A", rank := "Kingdom", description := none, attributes := [],
    children := [], domain := none, inheritedDomain := none }

/-- Witness for C5: attribute default and parent preservation at a
concrete call. -/
theorem createTaxonFrame_fields_witness :
    ((createTaxonFrame [w5Frame] cexSpec (some 0)).1[
        (createTaxonFrame [w5Frame] cexSpec (some 0)).2]?).map
      FrameData.attributes = some [] ∧
    (createTaxonFrame [w5Frame] cexSpec (some 0)).1[0]? =
      ([w5Frame] : Heap)[0]? :=
  ⟨(createTaxonFrame_fields_and_no_parent_mutation [w5Frame] cexSpec
      (some 0)).2.2.2.2.2.1 rfl,
   (createTaxonFrame_fields_and_no_parent_mutation [w5Frame] cexSpec
      (some 0)).2.2.2.2.2.2 0 (by decide)⟩

/-- C10: attaching a child under a key never fails and silently
overwrites: two attaches under the same key leave exactly the second
child under that key, every other key is untouched, and the same holds
for the heap-level attach step. -/
theorem attach_overwrite_last_write_wins
    (xs : List (String × Nat)) (k k2 : String) (v1 v2 : Nat)
    (hne : k2 ≠ k) :
    objSet (objSet xs k v1) k v2 = objSet xs k v2 ∧
    objGet (objSet xs k v2) k = some v2 ∧
    objGet (objSet xs k v2) k2 = objGet xs k2 ∧
    (∀ (h : Heap) (pid : Nat),
      setChild (setChild h pid k v1) pid k v2 = setChild h pid k v2) :=
  ⟨objSet_objSet xs k v1 v2, objGet_objSet_self xs k v2,
   objGet_objSet_ne xs k k2 v2 hne,
   fun h pid => setChild_setChild h pid k v1 v2⟩

/-- Witness for C10 on a concrete mapping. -/
theorem attach_overwrite_last_write_wins_witness :
    objSet (objSet [("a", 1)] "b" 2) "b" 3 = objSet [("a", 1)] "b" 3 ∧
    objGet (objSet [("a", 1)] "b" 3) "b" = some 3 ∧
    objGet (objSet [("a", 1)] "b" 3) "a" = objGet [("a", 1)] "a" ∧
    (∀ (h : Heap) (pid : Nat),
      setChild (setChild h pid "b" 2) pid "b" 3 = setChild h pid "b" 3) :=
  attach_overwrite_last_write_wins [("a", 1)] "b" "a" 2 3 (by decide)

/-- The `Taxon` interface of the renderer: `name` and `rank` are required,
`description`, `attributes` and `children` are optional (`children` maps
child keys to child taxa, in iteration order). -/
inductive Taxon : Type where
  | mk (name rank : String) (description : Option String)
       (attributes : List (String × String))
       (children : Option (List (String × Taxon))) : Taxon

def Taxon.name : Taxon → String
  | mk n _ _ _ _ => n

def Taxon.rank : Taxon → String
  | mk _ r _ _ _ => r

def Taxon.description : Taxon → Option String
  | mk _ _ d _ _ => d

def Taxon.attributes : Taxon → List (String × String)
  | mk _ _ _ a _ => a

def Taxon.children : Taxon → Option (List (String × Taxon))
  | mk _ _ _ _ c => c

/-- The per-instance UI state of `TaxonomyLevel`: the two `useState`
booleans. -/
structure UIState where
  expanded : Bool
  showDescription : Bool
deriving DecidableEq, Repr

/-- Both `useState(false)` initialisers. -/
def initialState : UIState :=
  { expanded := false, showDescription := false }

/-- `onClick` of the expand/collapse control: `setExpanded(!expanded)`. -/
def toggleExpanded (s : UIState) : UIState :=
  { s with expanded := !s.expanded }

/-- `onClick` of the description control:
`setShowDescription(!showDescription)`. -/
def toggleDescription (s : UIState) : UIState :=
  { s with showDescription := !s.showDescription }

/-- The guard of the expand/collapse control:
`data.children && Object.keys(data.children).length > 0`. -/
def childrenNonempty (t : Taxon) : Bool :=
  match t.children with
  | some cs => decide (0 < cs.length)
  | none => false

/-- What one `TaxonomyLevel` card shows for its own node: the header
label, the nesting level, the expand/collapse control (with its current
direction) when rendered, the description control (with its current
label) when rendered, and the description text when rendered. -/
structure RenderedNode where
  label : String
  level : Nat
  expandControl : Option Bool
  descControl : Option String
  descText : Option String
deriving DecidableEq, Repr

/-- The non-recursive part of `TaxonomyLevel`'s output for one node in
state `s`: the label is `data.name.replace(/_/g, " ")` plus the rank in
parentheses; the expand control is rendered iff the `children` guard
holds; the description control is rendered iff `data.description` is
truthy, labelled by `showDescription ? "Hide" : "Show"` plus
`" Description"`; the description text is rendered iff `showDescription`
holds and `data.description` is truthy. -/
def renderRow (t : Taxon) (level : Nat) (s : UIState) : RenderedNode :=
  { label := (t.name.replace "_" " ") ++ " (" ++ t.rank ++ ")"
    level := level
    expandControl := if childrenNonempty t then some s.expanded else none
    descControl :=
      if jsTruthy t.description then
        some ((if s.showDescription then "Hide" else "Show") ++ " Description")
      else none
    descText :=
      if s.showDescription && jsTruthy t.description then t.description
      else none }

/-- The recursive output of `TaxonomyLevel` for the subtree rooted at a
node: its own card, followed — when `expanded` holds and `children` is
present — by the cards of each child entry rendered at `level + 1`, in
the iteration order of the mapping.  `σ` assigns each mounted instance
(identified by its key path below the render root) its UI state. -/
def renderTree (σ : List String → UIState) (path : List String)
    (level : Nat) : Taxon → List RenderedNode
  | Taxon.mk n r d a c =>
    renderRow (Taxon.mk n r d a c) level (σ path) ::
      (if (σ path).expanded then
        match c with
        | some cs =>
          (cs.attach.map (fun x =>
            renderTree σ (path ++ [x.1.1]) (level + 1) x.1.2)).flatten
        | none => []
      else [])
termination_by t => sizeOf t
decreasing_by
  simp_wf
  obtain ⟨⟨k, t⟩, hmem⟩ := x
  have h1 := List.sizeOf_lt_of_mem hmem
  simp at h1 ⊢
  omega

theorem childrenNonempty_iff (t : Taxon) :
    childrenNonempty t = true ↔ ∃ cs, t.children = some cs ∧ cs ≠ [] := by
  cases t with
  | mk n r d a c =>
    cases c with
    | none => simp [childrenNonempty, Taxon.children]
    | some cs => cases cs <;> simp [childrenNonempty, Taxon.children]

/-- C6: the expand/collapse control is rendered iff the node's `children`
mapping is present and non-empty; a node with an absent or empty mapping
renders no control in any toggle state; and only the expand toggle
changes `expanded` — the description toggle leaves it fixed. -/
theorem expand_control_iff_children_nonempty (t : Taxon) (level : Nat)
    (s : UIState) :
    ((renderRow t level s).expandControl ≠ none ↔
      ∃ cs, t.children = some cs ∧ cs ≠ []) ∧
    ((t.children = none ∨ t.children = some []) →
      ∀ s2 : UIState, (renderRow t level s2).expandControl = none) ∧
    (toggleExpanded s).expanded = !s.expanded ∧
    (toggleDescription s).expanded = s.expanded := by
  refine ⟨?_, ?_, rfl, rfl⟩
  · cases hc : childrenNonempty t <;>
      simp [renderRow, hc, ← childrenNonempty_iff]
  · intro hc s2
    have hfalse : childrenNonempty t = false := by
      rcases hc with hc | hc <;>
        cases t <;> simp_all [childrenNonempty, Taxon.children]
    simp [renderRow, hfalse]

/-- A childless leaf node (`children` present but empty), as the Genus
cards are rendered. -/
def leafTaxon : Taxon :=
  Taxon.mk "Chytridium" "Genus" none [("habitat", "Soil")] (some [])

/-- Witness for C6: the leaf renders no expand control even after a
toggle. -/
theorem expand_control_iff_children_nonempty_witness :
    (renderRow leafTaxon 0 (toggleExpanded initialState)).expandControl =
      none :=
  (expand_control_iff_children_nonempty leafTaxon 0 initialState).2.1
    (Or.inr rfl) (toggleExpanded initialState)

/-- C7: the description control is rendered iff `description` is present
and non-empty; with `showDescription` true the text is rendered verbatim
and the control reads "Hide Description"; with it false no text is
rendered and the control reads "Show Description"; a node without a
description renders neither control nor text. -/
theorem description_toggle_contract (t : Taxon) (level : Nat) (s : UIState) :
    ((renderRow t level s).descControl ≠ none ↔
      jsTruthy t.description = true) ∧
    (s.showDescription = true → jsTruthy t.description = true →
      (renderRow t level s).descText = t.description ∧
      (renderRow t level s).descControl = some "Hide Description") ∧
    (s.showDescription = false →
      (renderRow t level s).descText = none ∧
      (jsTruthy t.description = true →
        (renderRow t level s).descControl = some "Show Description")) ∧
    (t.description = none →
      (renderRow t level s).descControl = none ∧
      (renderRow t level s).descText = none) := by
  refine ⟨?_, ?_, ?_, ?_⟩
  · by_cases hd : jsTruthy t.description <;> simp [renderRow, hd]
  · intro hs hd
    refine ⟨by simp [renderRow, hs, hd], ?_⟩
    simp only [renderRow, hd, if_true, hs]
    rfl
  · intro hs
    refine ⟨by simp [renderRow, hs], ?_⟩
    intro hd
    simp only [renderRow, hd, if_true, hs]
    rfl
  · intro hd
    constructor <;> simp [renderRow, hd, jsTruthy]

/-- A node carrying a description, initially hidden. -/
def descTaxon : Taxon :=
  Taxon.mk "X" "Rank" (some "X") [] none

/-- The state after toggling the description control once from the
initial state. -/
def shownState : UIState :=
  { expanded := false, showDescription := true }

/-- Witness for C7: with the description shown, the text is rendered and
the control reads "Hide Description". -/
theorem description_toggle_contract_witness :
    (renderRow descTaxon 0 shownState).descText = descTaxon.description ∧
    (renderRow descTaxon 0 shownState).descControl =
      some "Hide Description" :=
  (description_toggle_contract descTaxon 0 shownState).2.1 rfl (by decide)

/-- The state function after one instance's toggle fires: the instance at
`path` has `f` applied to its state, all others are untouched. -/
def updState (σ : List String → UIState) (path : List String)
    (f : UIState → UIState) : List String → UIState :=
  fun q => if q = path then f (σ q) else σ q

theorem toggleExpanded_toggleExpanded (s : UIState) :
    toggleExpanded (toggleExpanded s) = s := by
  cases s
  simp [toggleExpanded]

theorem toggleDescription_toggleDescription (s : UIState) :
    toggleDescription (toggleDescription s) = s := by
  cases s
  simp [toggleDescription]

theorem updState_toggle_twice (σ : List String → UIState)
    (path : List String) (f : UIState → UIState)
    (hf : ∀ s, f (f s) = s) :
    updState (updState σ path f) path f = σ := by
  funext q
  by_cases hq : q = path <;> simp [updState, hq, hf]

/-- C8: both UI booleans start false; each toggle flips exactly its own
boolean; toggling the same control twice restores the state, hence the
rendered output — the whole subtree for the expand toggle, the node's
card for the description toggle. -/
theorem toggle_idempotence (σ : List String → UIState) (path : List String)
    (t : Taxon) (level : Nat) (s : UIState) :
    initialState.expanded = false ∧
    initialState.showDescription = false ∧
    toggleExpanded (toggleExpanded s) = s ∧
    toggleDescription (toggleDescription s) = s ∧
    (toggleExpanded s).showDescription = s.showDescription ∧
    (toggleDescription s).expanded = s.expanded ∧
    renderTree (updState (updState σ path toggleExpanded) path toggleExpanded)
        path level t = renderTree σ path level t ∧
    renderRow t level (toggleDescription (toggleDescription s)) =
      renderRow t level s := by
  refine ⟨rfl, rfl, toggleExpanded_toggleExpanded s,
    toggleDescription_toggleDescription s, rfl, rfl, ?_, ?_⟩
  · rw [updState_toggle_twice σ path toggleExpanded
      toggleExpanded_toggleExpanded]
  · rw [toggleDescription_toggleDescription s]

/-- C9: with `expanded` false a node renders only its own card; with
`expanded` true and `children` present it renders its own card followed
by each child entry rendered recursively at `level + 1`, in the iteration
order of the mapping; and the node's own card always comes first, so a
fully expanded chain lists every parent before its children. -/
theorem render_children_recursion_order (σ : List String → UIState)
    (path : List String) (level : Nat) (n r : String) (d : Option String)
    (a : List (String × String)) (c : Option (List (String × Taxon))) :
    ((σ path).expanded = false →
      renderTree σ path level (Taxon.mk n r d a c) =
        [renderRow (Taxon.mk n r d a c) level (σ path)]) ∧
    (∀ cs, (σ path).expanded = true → c = some cs →
      renderTree σ path level (Taxon.mk n r d a c) =
        renderRow (Taxon.mk n r d a c) level (σ path) ::
          (cs.map (fun p =>
            renderTree σ (path ++ [p.1]) (level + 1) p.2)).flatten) ∧
    (∃ rest, renderTree σ path level (Taxon.mk n r d a c) =
      renderRow (Taxon.mk n r d a c) level (σ path) :: rest) := by
  refine ⟨?_, ?_, ?_⟩
  · intro h
    rw [renderTree.eq_def]
    simp [h]
  · intro cs h hc
    subst hc
    rw [renderTree.eq_def]
    simp [h]
    rw [List.attach_map_val cs
      (fun p => renderTree σ (path ++ [p.1]) (level + 1) p.2)]
  · rw [renderTree.eq_def]
    exact ⟨_, rfl⟩

/-- A state function with every instance expanded. -/
def allExpanded : List String → UIState :=
  fun _ => { expanded := true, showDescription := false }

/-- A Phylum child for the C9 chain. -/
def chainChild : Taxon :=
  Taxon.mk "Chytridiomycota" "Phylum" none [] (some [])

/-- Witness for C9: a two-level chain, expanded, renders the parent card
followed by the recursively rendered child. -/
theorem render_children_recursion_order_witness :
    renderTree allExpanded [] 0
        (Taxon.mk "Fungi" "Kingdom" none [] (some [("Chytridiomycota", chainChild)])) =
      renderRow
          (Taxon.mk "Fungi" "Kingdom" none [] (some [("Chytridiomycota", chainChild)]))
          0 (allExpanded []) ::
        (([("Chytridiomycota", chainChild)]).map (fun p =>
          renderTree allExpanded ([] ++ [p.1]) 1 p.2)).flatten :=
  (render_children_recursion_order allExpanded [] 0 "Fungi" "Kingdom" none []
    (some [("Chytridiomycota", chainChild)])).2.1
    [("Chytridiomycota", chainChild)] rfl rfl
